import Mathlib

/-!
Shallow embedding of the two OpenVPN 3 Linux service daemons
(`src/configmgr/openvpn3-service-configmgr.cpp` and
`src/netcfg/openvpn3-service-netcfg.cpp`).

Each daemon `main` is modelled as a pure function from its parsed
command-line arguments and an environment oracle (outcomes of the external
calls: D-Bus connect, logging-relay attach, service setup, the
`capng_change_id` result, the effective uid/gid) to the ordered trace of
observable actions it performs together with its outcome (an exit code, or
an exception propagating out of the modelled function).

The `IdleCheck` watchdog class is not part of the two source files; its
poll loop is modelled separately from the specification (see `wdStep`).
-/

namespace OpenVPN3

/-- Observable actions performed by the daemons, in program order. -/
inductive Ev where
  | dropRoot                  -- `drop_root()` in configmgr main
  | printVersion              -- `std::cout << get_version(...)`
  | newMainLoop               -- `g_main_loop_new`
  | openLogFile               -- `logfs.open(fname, app)`
  | mkLogWriter               -- construction of the LogWriter (the log sink)
  | dbusConnect               -- `DBus dbus(...); dbus.Connect()`
  | mkService                 -- construction of the payload service object
  | attachRelay               -- `LogServiceProxy` attach call
  | setLogLevel               -- `SetLogLevel` / `SetDefaultLogLevel`
  | setStateDir               -- `SetStateDirectory` + `umask`
  | mkIdleCheck               -- `new IdleCheck(main_loop, minutes)`
  | setPollTime               -- `idle_exit->SetPollTime(...)` (netcfg only)
  | enableIdleCheckOnService  -- `EnableIdleCheck(idle_exit)`
  | addSigInt                 -- `g_unix_signal_add(SIGINT, stop_handler, ...)`
  | addSigTerm                -- `g_unix_signal_add(SIGTERM, stop_handler, ...)`
  | serviceSetup              -- `cfgmgr.Setup()` / `netcfgsrv.Setup()`
  | idleEnable                -- `idle_exit->Enable()`
  | loopRun                   -- `g_main_loop_run(main_loop)`
  | loopUnref                 -- `g_main_loop_unref(main_loop)`
  | detachRelay               -- `->Detach(...)`
  | idleDisable               -- `idle_exit->Disable()`
  | idleJoin                  -- `idle_exit->Join()`
  | capngClear                -- `capng_clear(CAPNG_SELECT_BOTH)`
  | capngUpdateNetAdmin       -- `capng_update(ADD, EFFECTIVE|PERMITTED, CAP_NET_ADMIN)`
  | capngChangeId             -- `capng_change_id(uid, gid, flags)`
  | capngApply                -- `capng_apply(CAPNG_SELECT_BOTH)`
  | releaseBus                -- destruction of the `DBus` connection object
  deriving DecidableEq, Repr

/-- Exception classes that cross the modelled function boundaries.
`commandExc` stands for `CommandException` (a `CommandArgBaseException`);
`logServiceProxyExc` for `LogServiceProxyException`; `otherStdExc` for any
other exception derived from `std::exception`. -/
inductive Exc where
  | logServiceProxyExc
  | commandExc
  | otherStdExc
  deriving DecidableEq, Repr

/-- Outcome of a whole process: an exit code, or an exception that no
handler in the source catches. -/
inductive Outcome where
  | exit (code : Int)
  | uncaught (e : Exc)
  deriving DecidableEq, Repr

/-- Parsed arguments of the configuration manager.  Numeric option values
are the post-`atoi` values (assignment to `unsigned int` wraps, hence
`Nat`). -/
structure CfgArgs where
  idleExit : Option Nat       -- `--idle-exit MINUTES`
  logFile : Option String     -- `--log-file FILE`
  colour : Bool               -- `--colour`
  signalBroadcast : Bool      -- `--signal-broadcast`
  logLevel : Option Nat       -- `--log-level`
  stateDir : Option String    -- `--state-dir`

/-- Outcomes of the external calls the configuration manager makes. -/
structure CfgExt where
  dbusConnectOk : Bool        -- `dbus.Connect()` does not throw
  attachOk : Bool             -- `LogServiceProxy::AttachInterface` does not throw
  setupOk : Bool              -- `cfgmgr.Setup()` does not throw

/-- The log-destination block shared verbatim by both daemons: when
`--log-file` is given, open the file (unless the value is the sentinel
`stdout:`) and construct the log writer. -/
def logSinkTrace (logFile : Option String) : List Ev :=
  match logFile with
  | none => []
  | some fname =>
      (if fname ≠ "stdout:" then [Ev.openLogFile] else []) ++ [Ev.mkLogWriter]

/-- `config_manager` from `openvpn3-service-configmgr.cpp` (lines 33-140):
the trace of actions and either a return value or a propagating
exception.  An exception unwinds the `DBus` local, releasing the bus. -/
def config_manager (a : CfgArgs) (ext : CfgExt) : List Ev × Except Exc Int :=
  let idle_wait_min := a.idleExit.getD 3
  let pre := Ev.printVersion :: Ev.newMainLoop :: logSinkTrace a.logFile
  if ¬ ext.dbusConnectOk then
    (pre ++ [Ev.dbusConnect, Ev.releaseBus], Except.error Exc.otherStdExc)
  else
    let t1 := pre ++ [Ev.dbusConnect, Ev.mkService]
    if ¬ a.signalBroadcast ∧ ¬ ext.attachOk then
      (t1 ++ [Ev.attachRelay, Ev.releaseBus], Except.error Exc.logServiceProxyExc)
    else
      let t2 := t1 ++ (if ¬ a.signalBroadcast then [Ev.attachRelay] else [])
                ++ [Ev.setLogLevel]
                ++ (if a.stateDir.isSome then [Ev.setStateDir] else [])
      let t3 := t2 ++ (if idle_wait_min > 0 then
                        [Ev.mkIdleCheck, Ev.enableIdleCheckOnService]
                      else [Ev.addSigInt, Ev.addSigTerm])
      if ¬ ext.setupOk then
        (t3 ++ [Ev.serviceSetup, Ev.releaseBus], Except.error Exc.otherStdExc)
      else
        (t3 ++ [Ev.serviceSetup]
            ++ (if idle_wait_min > 0 then [Ev.idleEnable] else [])
            ++ [Ev.loopRun, Ev.loopUnref]
            ++ (if ¬ a.signalBroadcast then [Ev.detachRelay] else [])
            ++ (if idle_wait_min > 0 then [Ev.idleDisable, Ev.idleJoin] else [])
            ++ [Ev.releaseBus],
         Except.ok 0)

/-- `main` of the configuration manager (lines 143-182): `drop_root()`
first, then argument parsing dispatches to `config_manager`;
`LogServiceProxyException` and `CommandArgBaseException` map to exit code
2, anything else escapes uncaught. -/
def configmgr_main (usageError : Bool) (a : CfgArgs) (ext : CfgExt) :
    List Ev × Outcome :=
  if usageError then ([Ev.dropRoot], Outcome.exit 2)
  else
    match config_manager a ext with
    | (tr, Except.ok c) => (Ev.dropRoot :: tr, Outcome.exit c)
    | (tr, Except.error Exc.logServiceProxyExc) => (Ev.dropRoot :: tr, Outcome.exit 2)
    | (tr, Except.error Exc.commandExc) => (Ev.dropRoot :: tr, Outcome.exit 2)
    | (tr, Except.error Exc.otherStdExc) =>
        (Ev.dropRoot :: tr, Outcome.uncaught Exc.otherStdExc)

/-- Parsed arguments of the network configuration daemon.
`disableCapabilities` and `runAsRoot` only exist in `DEBUG_OPTIONS`
builds. -/
structure NetArgs where
  idleExit : Option Nat
  logFile : Option String
  colour : Bool
  signalBroadcast : Bool
  logLevel : Option Int       -- `int log_level`, default -1
  disableCapabilities : Bool
  runAsRoot : Bool

/-- Environment of the network configuration daemon. -/
structure NetEnv where
  euid : Nat                  -- `geteuid()`
  egid : Nat                  -- `getegid()`
  capngChangeIdResult : Int   -- return of `capng_change_id`
  dbusConnectOk : Bool
  attachOk : Bool
  setupOk : Bool

/-- `drop_root_ng` (netcfg lines 42-55): calls `capng_change_id`; a
non-zero result raises `CommandException`. -/
def drop_root_ng (res : Int) : List Ev × Except Exc Unit :=
  if res ≠ 0 then ([Ev.capngChangeId], Except.error Exc.commandExc)
  else ([Ev.capngChangeId], Except.ok ())

/-- `netcfg_main` (netcfg lines 57-212).  `dbg` is the `DEBUG_OPTIONS`
compile-time flag.  The euid/egid precondition check comes first; then the
log sink; then the capability block; the try-block converts any
`std::exception` into a return of 3, releasing the bus during unwinding. -/
def netcfg_main (dbg : Bool) (a : NetArgs) (env : NetEnv) :
    List Ev × Except Exc Int :=
  if env.egid ≠ 0 ∨ env.euid ≠ 0 then
    ([], Except.error Exc.commandExc)
  else
    let tLog := logSinkTrace a.logFile
    let doCapAdd := if dbg then ¬ a.disableCapabilities else True
    let doDrop := if dbg then ¬ a.runAsRoot else True
    let tCapAdd := if doCapAdd then [Ev.capngUpdateNetAdmin] else []
    if doDrop ∧ env.capngChangeIdResult ≠ 0 then
      (tLog ++ [Ev.capngClear] ++ tCapAdd ++ (drop_root_ng env.capngChangeIdResult).1,
       Except.error Exc.commandExc)
    else
      let tCap := [Ev.capngClear] ++ tCapAdd
                  ++ (if doDrop then (drop_root_ng env.capngChangeIdResult).1 else [])
                  ++ [Ev.capngApply]
      let idle_wait_min := a.idleExit.getD 5
      let log_level := a.logLevel.getD (-1)
      if ¬ env.dbusConnectOk then
        (tLog ++ tCap ++ [Ev.dbusConnect, Ev.releaseBus], Except.ok 3)
      else
        let t1 := tLog ++ tCap ++ [Ev.dbusConnect]
        if ¬ a.signalBroadcast ∧ ¬ env.attachOk then
          (t1 ++ [Ev.attachRelay, Ev.releaseBus], Except.ok 3)
        else
          let t2 := t1 ++ (if ¬ a.signalBroadcast then [Ev.attachRelay] else [])
                    ++ [Ev.printVersion, Ev.mkService]
                    ++ (if log_level > 0 then [Ev.setLogLevel] else [])
                    ++ [Ev.newMainLoop, Ev.addSigInt, Ev.addSigTerm]
                    ++ (if idle_wait_min > 0 then
                          [Ev.mkIdleCheck, Ev.setPollTime, Ev.enableIdleCheckOnService]
                        else [])
          if ¬ env.setupOk then
            (t2 ++ [Ev.serviceSetup, Ev.releaseBus], Except.ok 3)
          else
            (t2 ++ [Ev.serviceSetup]
                ++ (if idle_wait_min > 0 then [Ev.idleEnable] else [])
                ++ [Ev.loopRun, Ev.loopUnref]
                ++ (if ¬ a.signalBroadcast then [Ev.detachRelay] else [])
                ++ (if idle_wait_min > 0 then [Ev.idleDisable, Ev.idleJoin] else [])
                ++ [Ev.releaseBus],
             Except.ok 0)

/-- `main` of the netcfg daemon (lines 214-248): `CommandException`
(including the ones from the parser, the root-precondition check and
`drop_root_ng`) maps to exit code 2. -/
def netcfg_top (dbg : Bool) (usageError : Bool) (a : NetArgs) (env : NetEnv) :
    List Ev × Outcome :=
  if usageError then ([], Outcome.exit 2)
  else
    match netcfg_main dbg a env with
    | (tr, Except.ok c) => (tr, Outcome.exit c)
    | (tr, Except.error Exc.commandExc) => (tr, Outcome.exit 2)
    | (tr, Except.error e) => (tr, Outcome.uncaught e)

/-- `x` occurs strictly before `y` in the trace `tr` (both occur, and the
first occurrence of `x` precedes the first occurrence of `y`). -/
def evBefore (tr : List Ev) (x y : Ev) : Prop :=
  x ∈ tr ∧ y ∈ tr ∧ tr.indexOf x < tr.indexOf y

instance (tr : List Ev) (x y : Ev) : Decidable (evBefore tr x y) := by
  unfold evBefore; infer_instance

/-- Closed form of the configuration manager's normal-run trace
(`config_manager` when no external call fails). -/
def cfgOkTrace (a : CfgArgs) : List Ev :=
  Ev.printVersion :: Ev.newMainLoop :: logSinkTrace a.logFile
  ++ [Ev.dbusConnect, Ev.mkService]
  ++ (if ¬ a.signalBroadcast then [Ev.attachRelay] else [])
  ++ [Ev.setLogLevel]
  ++ (if a.stateDir.isSome then [Ev.setStateDir] else [])
  ++ (if a.idleExit.getD 3 > 0 then [Ev.mkIdleCheck, Ev.enableIdleCheckOnService]
      else [Ev.addSigInt, Ev.addSigTerm])
  ++ [Ev.serviceSetup]
  ++ (if a.idleExit.getD 3 > 0 then [Ev.idleEnable] else [])
  ++ [Ev.loopRun, Ev.loopUnref]
  ++ (if ¬ a.signalBroadcast then [Ev.detachRelay] else [])
  ++ (if a.idleExit.getD 3 > 0 then [Ev.idleDisable, Ev.idleJoin] else [])
  ++ [Ev.releaseBus]

theorem config_manager_ok (a : CfgArgs) (ext : CfgExt)
    (h1 : ext.dbusConnectOk = true) (h2 : ext.attachOk = true)
    (h3 : ext.setupOk = true) :
    config_manager a ext = (cfgOkTrace a, Except.ok 0) := by
  rcases ext with ⟨d, t, s⟩
  cases h1; cases h2; cases h3
  simp [config_manager, cfgOkTrace]

theorem configmgr_main_ok (a : CfgArgs) (ext : CfgExt)
    (h1 : ext.dbusConnectOk = true) (h2 : ext.attachOk = true)
    (h3 : ext.setupOk = true) :
    configmgr_main false a ext = (Ev.dropRoot :: cfgOkTrace a, Outcome.exit 0) := by
  simp [configmgr_main, config_manager_ok a ext h1 h2 h3]

/-- Closed form of the netcfg daemon's normal-run trace (`netcfg_main`
when running as root with all external calls succeeding). -/
def netOkTrace (dbg : Bool) (a : NetArgs) : List Ev :=
  logSinkTrace a.logFile
  ++ [Ev.capngClear]
  ++ (if (if dbg then ¬ a.disableCapabilities else True) then [Ev.capngUpdateNetAdmin] else [])
  ++ (if (if dbg then ¬ a.runAsRoot else True) then [Ev.capngChangeId] else [])
  ++ [Ev.capngApply, Ev.dbusConnect]
  ++ (if ¬ a.signalBroadcast then [Ev.attachRelay] else [])
  ++ [Ev.printVersion, Ev.mkService]
  ++ (if a.logLevel.getD (-1) > 0 then [Ev.setLogLevel] else [])
  ++ [Ev.newMainLoop, Ev.addSigInt, Ev.addSigTerm]
  ++ (if a.idleExit.getD 5 > 0 then
        [Ev.mkIdleCheck, Ev.setPollTime, Ev.enableIdleCheckOnService] else [])
  ++ [Ev.serviceSetup]
  ++ (if a.idleExit.getD 5 > 0 then [Ev.idleEnable] else [])
  ++ [Ev.loopRun, Ev.loopUnref]
  ++ (if ¬ a.signalBroadcast then [Ev.detachRelay] else [])
  ++ (if a.idleExit.getD 5 > 0 then [Ev.idleDisable, Ev.idleJoin] else [])
  ++ [Ev.releaseBus]

theorem netcfg_main_ok (dbg : Bool) (a : NetArgs) (env : NetEnv)
    (h1 : env.euid = 0) (h2 : env.egid = 0) (h3 : env.capngChangeIdResult = 0)
    (h4 : env.dbusConnectOk = true) (h5 : env.attachOk = true)
    (h6 : env.setupOk = true) :
    netcfg_main dbg a env = (netOkTrace dbg a, Except.ok 0) := by
  rcases env with ⟨eu, eg, cr, d, t, s⟩
  cases h1; cases h2; cases h3; cases h4; cases h5; cases h6
  rcases dbg <;>
    simp [netcfg_main, netOkTrace, drop_root_ng]

theorem netcfg_top_ok (dbg : Bool) (a : NetArgs) (env : NetEnv)
    (h1 : env.euid = 0) (h2 : env.egid = 0) (h3 : env.capngChangeIdResult = 0)
    (h4 : env.dbusConnectOk = true) (h5 : env.attachOk = true)
    (h6 : env.setupOk = true) :
    netcfg_top dbg false a env = (netOkTrace dbg a, Outcome.exit 0) := by
  simp [netcfg_top, netcfg_main_ok dbg a env h1 h2 h3 h4 h5 h6]

/-- Modelled from the spec: the `IdleCheck` watchdog class is not among
the two source files, so its poll loop is taken from the specification of
the Idle-Exit Watchdog (spec §4.3): every poll tick the thread checks
whether the daemon has been continuously non-busy for at least the idle
threshold; if so it requests loop termination exactly once and stops
polling.  Time is discretised into poll ticks; `threshold` is the idle
threshold measured in poll ticks. -/
structure WdState where
  running : Bool       -- the poll thread is still polling
  idleTicks : Nat      -- consecutive ticks in which the daemon was not busy
  fired : Bool         -- the termination request has been issued
  deriving DecidableEq, Repr

/-- Initial watchdog state right after `Enable()`. -/
def wdInit : WdState :=
  { running := true, idleTicks := 0, fired := false }

/-- Modelled from the spec: one poll tick.  `busy` is the activity pulse
observed during this tick.  Returns the next state and the number of
termination requests issued on this tick. -/
def wdStep (threshold : Nat) (s : WdState) (busy : Bool) : WdState × Nat :=
  if ¬ s.running then (s, 0)
  else
    let idle := if busy then 0 else s.idleTicks + 1
    if threshold ≤ idle then
      ({ running := false, idleTicks := idle, fired := true }, 1)
    else
      ({ s with idleTicks := idle }, 0)

/-- Modelled from the spec: run the watchdog over a finite sequence of
activity pulses, returning the final state and the total number of
termination requests delivered to the loop. -/
def wdRun (threshold : Nat) (s : WdState) : List Bool → WdState × Nat
  | [] => (s, 0)
  | b :: bs =>
      let p := wdStep threshold s b
      let q := wdRun threshold p.1 bs
      (q.1, p.2 + q.2)

theorem wdRun_not_running (threshold : Nat) (s : WdState) (hs : s.running = false) :
    ∀ bs : List Bool, wdRun threshold s bs = (s, 0) := by
  intro bs
  induction bs with
  | nil => rfl
  | cons b bs ih =>
      simp only [wdRun, wdStep, hs]
      simpa [hs] using ih

theorem wdRun_append (threshold : Nat) (s : WdState) (xs ys : List Bool) :
    wdRun threshold s (xs ++ ys) =
      ((wdRun threshold (wdRun threshold s xs).1 ys).1,
       (wdRun threshold s xs).2 + (wdRun threshold (wdRun threshold s xs).1 ys).2) := by
  induction xs generalizing s with
  | nil => simp [wdRun]
  | cons x xs ih =>
      simp [wdRun, ih, Nat.add_assoc]

/-- From any state whose invariant holds (`running` implies not yet fired
and `idleTicks < threshold`), a run either issues no request and preserves
the invariant with the thread still polling, or issues exactly one request
and leaves the thread stopped. -/
theorem wdRun_dichotomy (threshold : Nat) (s : WdState)
    (hr : s.running = true) (hf : s.fired = false) (hi : s.idleTicks < threshold) :
    ∀ bs : List Bool,
      ((wdRun threshold s bs).2 = 0 ∧ (wdRun threshold s bs).1.running = true ∧
        (wdRun threshold s bs).1.fired = false ∧
        (wdRun threshold s bs).1.idleTicks < threshold) ∨
      ((wdRun threshold s bs).2 = 1 ∧ (wdRun threshold s bs).1.running = false) := by
  intro bs
  induction bs generalizing s with
  | nil => exact Or.inl ⟨rfl, hr, hf, hi⟩
  | cons b bs ih =>
      by_cases hfire : threshold ≤ (if b then 0 else s.idleTicks + 1)
      · have hstep : wdStep threshold s b =
            ({ running := false, idleTicks := if b then 0 else s.idleTicks + 1,
               fired := true }, 1) := by
          simp [wdStep, hr, hfire]
        have hrest := wdRun_not_running threshold
          ({ running := false, idleTicks := if b then 0 else s.idleTicks + 1,
             fired := true }) rfl bs
        refine Or.inr ?_
        simp [wdRun, hstep, hrest]
      · have hstep : wdStep threshold s b =
            ({ s with idleTicks := if b then 0 else s.idleTicks + 1 }, 0) := by
          simp [wdStep, hr, hfire]
        have := ih ({ s with idleTicks := if b then 0 else s.idleTicks + 1 })
          hr hf (by dsimp only; omega)
        simp only [wdRun, hstep]
        simpa using this

/-- From a still-polling state, feeding enough consecutive idle ticks to
cross the threshold issues exactly one termination request. -/
theorem wdRun_idle_fires (threshold : Nat) (s : WdState)
    (hr : s.running = true) (hi : s.idleTicks < threshold) :
    ∀ m : Nat, threshold ≤ s.idleTicks + m →
      (wdRun threshold s (List.replicate m false)).2 = 1 := by
  intro m
  induction m generalizing s with
  | zero => intro h; omega
  | succ m ih =>
      intro hm
      by_cases hfire : threshold ≤ s.idleTicks + 1
      · have hstep : wdStep threshold s false =
            ({ running := false, idleTicks := s.idleTicks + 1, fired := true }, 1) := by
          simp [wdStep, hr, hfire]
        have hrest := wdRun_not_running threshold
          ({ running := false, idleTicks := s.idleTicks + 1, fired := true }) rfl
          (List.replicate m false)
        simp [List.replicate_succ, wdRun, hstep, hrest]
      · have hstep : wdStep threshold s false =
            ({ s with idleTicks := s.idleTicks + 1 }, 0) := by
          simp [wdStep, hr, hfire]
        have := ih ({ s with idleTicks := s.idleTicks + 1 }) hr
          (by dsimp only; omega) (by dsimp only; omega)
        simp only [List.replicate_succ, wdRun, hstep]
        simpa using this

/-! Helper lemmas for reasoning about the daemon traces. -/

theorem logSinkTrace_cases (lf : Option String) :
    logSinkTrace lf = [] ∨ logSinkTrace lf = [Ev.mkLogWriter] ∨
    logSinkTrace lf = [Ev.openLogFile, Ev.mkLogWriter] := by
  rcases lf with _ | f
  · exact Or.inl rfl
  · by_cases hf : f ≠ "stdout:" <;> simp [logSinkTrace, hf]

/-! Claim theorems. -/

/-- C6: The network-configuration daemon requires elevated privilege as a
precondition: if the effective user id or effective group id is non-zero
at entry, it fails immediately with an error (the trace is empty, so no
log sink is opened, no capability is changed and no bus connection is
made before the failure), and the process exits with the usage-error
code. -/
theorem netcfg_requires_root (dbg : Bool) (a : NetArgs) (env : NetEnv)
    (h : env.euid ≠ 0 ∨ env.egid ≠ 0) :
    netcfg_main dbg a env = ([], Except.error Exc.commandExc) ∧
    (netcfg_top dbg false a env).2 = Outcome.exit 2 := by
  have hcond : env.egid ≠ 0 ∨ env.euid ≠ 0 := h.symm
  constructor
  · unfold netcfg_main
    rw [if_pos hcond]
  · unfold netcfg_top netcfg_main
    rw [if_neg (by simp), if_pos hcond]

/-- C6 witness: with effective uid 1 the daemon rejects startup with an
empty trace and exit code 2. -/
theorem netcfg_requires_root_witness :
    netcfg_main false ⟨none, none, false, false, none, false, false⟩
        ⟨1, 0, 0, true, true, true⟩ = ([], Except.error Exc.commandExc) ∧
    (netcfg_top false false ⟨none, none, false, false, none, false, false⟩
        ⟨1, 0, 0, true, true, true⟩).2 = Outcome.exit 2 :=
  netcfg_requires_root false ⟨none, none, false, false, none, false, false⟩
    ⟨1, 0, 0, true, true, true⟩ (Or.inl (by decide))

/-- C5: If `capng_change_id` returns a non-zero status, the netcfg daemon
(non-debug build, started as root) aborts startup with a fatal
`CommandException`: the event loop never runs, the payload service is
never set up, and the process exits with a startup-error code instead of
running in a degraded mode. -/
theorem capng_failure_aborts_startup (a : NetArgs) (env : NetEnv)
    (h0 : env.euid = 0) (h1 : env.egid = 0)
    (hc : env.capngChangeIdResult ≠ 0) :
    (netcfg_main false a env).2 = Except.error Exc.commandExc ∧
    Ev.loopRun ∉ (netcfg_main false a env).1 ∧
    Ev.serviceSetup ∉ (netcfg_main false a env).1 ∧
    (netcfg_top false false a env).2 = Outcome.exit 2 := by
  rcases env with ⟨eu, eg, cr, d, t, s⟩
  cases h0; cases h1
  simp only at hc
  simp only [netcfg_top, netcfg_main, drop_root_ng]
  rcases logSinkTrace_cases a.logFile with hL | hL | hL <;> rw [hL] <;>
    simp [hc]

/-- C5 witness: a concrete run in which `capng_change_id` returns 1. -/
theorem capng_failure_aborts_startup_witness :
    (netcfg_main false ⟨none, none, false, false, none, false, false⟩
        ⟨0, 0, 1, true, true, true⟩).2 = Except.error Exc.commandExc ∧
    Ev.loopRun ∉ (netcfg_main false ⟨none, none, false, false, none, false, false⟩
        ⟨0, 0, 1, true, true, true⟩).1 ∧
    Ev.serviceSetup ∉ (netcfg_main false ⟨none, none, false, false, none, false, false⟩
        ⟨0, 0, 1, true, true, true⟩).1 ∧
    (netcfg_top false false ⟨none, none, false, false, none, false, false⟩
        ⟨0, 0, 1, true, true, true⟩).2 = Outcome.exit 2 :=
  capng_failure_aborts_startup ⟨none, none, false, false, none, false, false⟩
    ⟨0, 0, 1, true, true, true⟩ rfl rfl (by decide)

set_option maxHeartbeats 2000000 in
/-- C9: In the netcfg daemon's non-debug build (started as root), the
`CAP_NET_ADMIN` capability is added to the effective and permitted sets
(`capng_update`) strictly before the user/group identity switch
(`capng_change_id`), on every execution path that reaches the capability
block. -/
theorem cap_net_admin_before_identity_switch (a : NetArgs) (env : NetEnv)
    (h0 : env.euid = 0) (h1 : env.egid = 0) :
    evBefore (netcfg_main false a env).1 Ev.capngUpdateNetAdmin Ev.capngChangeId := by
  rcases env with ⟨eu, eg, cr, d, t, s⟩
  cases h0; cases h1
  simp only [netcfg_main, drop_root_ng]
  by_cases hc : cr ≠ 0
  · rcases logSinkTrace_cases a.logFile with hL | hL | hL <;> rw [hL] <;>
      simp [hc, evBefore]
  · have hc0 : cr = 0 := by omega
    subst hc0
    rcases d <;> rcases t <;> rcases s <;>
      by_cases hb : a.signalBroadcast = true <;>
      by_cases hv : a.logLevel.getD (-1) > 0 <;>
      by_cases hw : a.idleExit.getD 5 > 0 <;>
      rcases logSinkTrace_cases a.logFile with hL | hL | hL <;> rw [hL] <;>
      simp [hb, hv, hw, evBefore]

/-- C9 witness: a concrete non-debug run as root. -/
theorem cap_net_admin_before_identity_switch_witness :
    evBefore (netcfg_main false ⟨none, none, false, false, none, false, false⟩
        ⟨0, 0, 0, true, true, true⟩).1 Ev.capngUpdateNetAdmin Ev.capngChangeId :=
  cap_net_admin_before_identity_switch ⟨none, none, false, false, none, false, false⟩
    ⟨0, 0, 0, true, true, true⟩ rfl rfl

set_option maxHeartbeats 4000000 in
/-- C7: With an idle-exit threshold of 0 minutes neither daemon ever
constructs, hands over, or enables the idle watchdog on any execution
path; with a threshold greater than 0, on the normal path the watchdog is
constructed, handed to the payload service via `EnableIdleCheck`, and
enabled strictly before the event loop runs. -/
theorem idle_exit_watchdog_gating (ca : CfgArgs) (ce : CfgExt) (u : Bool)
    (na : NetArgs) (ne : NetEnv) :
    (ca.idleExit.getD 3 = 0 →
       Ev.mkIdleCheck ∉ (configmgr_main u ca ce).1 ∧
       Ev.enableIdleCheckOnService ∉ (configmgr_main u ca ce).1 ∧
       Ev.idleEnable ∉ (configmgr_main u ca ce).1) ∧
    (na.idleExit.getD 5 = 0 →
       Ev.mkIdleCheck ∉ (netcfg_top false u na ne).1 ∧
       Ev.enableIdleCheckOnService ∉ (netcfg_top false u na ne).1 ∧
       Ev.idleEnable ∉ (netcfg_top false u na ne).1) ∧
    (0 < ca.idleExit.getD 3 → ce.dbusConnectOk = true → ce.attachOk = true →
       ce.setupOk = true →
       Ev.mkIdleCheck ∈ (configmgr_main false ca ce).1 ∧
       Ev.enableIdleCheckOnService ∈ (configmgr_main false ca ce).1 ∧
       evBefore (configmgr_main false ca ce).1 Ev.idleEnable Ev.loopRun) ∧
    (0 < na.idleExit.getD 5 → ne.euid = 0 → ne.egid = 0 →
       ne.capngChangeIdResult = 0 → ne.dbusConnectOk = true → ne.attachOk = true →
       ne.setupOk = true →
       Ev.mkIdleCheck ∈ (netcfg_top false false na ne).1 ∧
       Ev.enableIdleCheckOnService ∈ (netcfg_top false false na ne).1 ∧
       evBefore (netcfg_top false false na ne).1 Ev.idleEnable Ev.loopRun) := by
  refine ⟨?_, ?_, ?_, ?_⟩
  · intro hz
    rcases ce with ⟨d, t, s⟩
    rcases u <;> rcases d <;> rcases t <;> rcases s <;>
      simp only [configmgr_main, config_manager] <;>
      by_cases hb : ca.signalBroadcast = true <;>
      by_cases hsd : ca.stateDir.isSome = true <;>
      rcases logSinkTrace_cases ca.logFile with hL | hL | hL <;> rw [hL] <;>
      simp [hz, hb, hsd]
  · intro hz
    rcases ne with ⟨eu, eg, cr, d, t, s⟩
    by_cases hroot : eg ≠ 0 ∨ eu ≠ 0
    · simp [netcfg_top, netcfg_main, hroot]
    · have he : eu = 0 ∧ eg = 0 := by omega
      cases he.1; cases he.2
      simp only [netcfg_top, netcfg_main, drop_root_ng]
      by_cases hcr : cr ≠ 0
      · rcases u <;>
          rcases logSinkTrace_cases na.logFile with hL | hL | hL <;> rw [hL] <;>
          simp [hcr]
      · have hc0 : cr = 0 := by omega
        cases hc0
        rcases u <;> rcases d <;> rcases t <;> rcases s <;>
          by_cases hb : na.signalBroadcast = true <;>
          by_cases hv : na.logLevel.getD (-1) > 0 <;>
          rcases logSinkTrace_cases na.logFile with hL | hL | hL <;> rw [hL] <;>
          simp [hz, hb, hv]
  · intro hp h1 h2 h3
    rw [configmgr_main_ok ca ce h1 h2 h3]
    simp only [cfgOkTrace]
    by_cases hb : ca.signalBroadcast = true <;>
      by_cases hsd : ca.stateDir.isSome = true <;>
      rcases logSinkTrace_cases ca.logFile with hL | hL | hL <;> rw [hL] <;>
      simp [hp, hb, hsd, evBefore]
  · intro hp h1 h2 h3 h4 h5 h6
    rw [netcfg_top_ok false na ne h1 h2 h3 h4 h5 h6]
    simp only [netOkTrace]
    by_cases hb : na.signalBroadcast = true <;>
      by_cases hv : na.logLevel.getD (-1) > 0 <;>
      rcases logSinkTrace_cases na.logFile with hL | hL | hL <;> rw [hL] <;>
      simp [hp, hb, hv, evBefore]

/-- C7 witness: threshold 0 produces no watchdog activity; the default
thresholds (3 and 5 minutes) produce a constructed, handed-over watchdog
enabled before the loop. -/
theorem idle_exit_watchdog_gating_witness :
    (Ev.mkIdleCheck ∉ (configmgr_main false ⟨some 0, none, false, false, none, none⟩
        ⟨true, true, true⟩).1 ∧
     Ev.enableIdleCheckOnService ∉ (configmgr_main false ⟨some 0, none, false, false, none, none⟩
        ⟨true, true, true⟩).1 ∧
     Ev.idleEnable ∉ (configmgr_main false ⟨some 0, none, false, false, none, none⟩
        ⟨true, true, true⟩).1) ∧
    (Ev.mkIdleCheck ∈ (netcfg_top false false ⟨none, none, false, false, none, false, false⟩
        ⟨0, 0, 0, true, true, true⟩).1 ∧
     Ev.enableIdleCheckOnService ∈ (netcfg_top false false ⟨none, none, false, false, none, false, false⟩
        ⟨0, 0, 0, true, true, true⟩).1 ∧
     evBefore (netcfg_top false false ⟨none, none, false, false, none, false, false⟩
        ⟨0, 0, 0, true, true, true⟩).1 Ev.idleEnable Ev.loopRun) :=
  ⟨(idle_exit_watchdog_gating ⟨some 0, none, false, false, none, none⟩ ⟨true, true, true⟩
      false ⟨none, none, false, false, none, false, false⟩ ⟨0, 0, 0, true, true, true⟩).1
      (by decide),
   (idle_exit_watchdog_gating ⟨some 0, none, false, false, none, none⟩ ⟨true, true, true⟩
      false ⟨none, none, false, false, none, false, false⟩ ⟨0, 0, 0, true, true, true⟩).2.2.2
      (by decide) rfl rfl rfl rfl rfl rfl⟩

set_option maxHeartbeats 4000000 in
/-- C8: When broadcast signalling is selected, neither daemon ever calls
attach or detach on the central logging relay, on any execution path;
when broadcast is not selected, on the normal path the attach happens
during bootstrap (before the loop runs) and the matching detach happens
during teardown (after the loop returns). -/
theorem broadcast_skips_relay (ca : CfgArgs) (ce : CfgExt) (u : Bool)
    (na : NetArgs) (ne : NetEnv) :
    (ca.signalBroadcast = true →
       Ev.attachRelay ∉ (configmgr_main u ca ce).1 ∧
       Ev.detachRelay ∉ (configmgr_main u ca ce).1) ∧
    (na.signalBroadcast = true →
       Ev.attachRelay ∉ (netcfg_top false u na ne).1 ∧
       Ev.detachRelay ∉ (netcfg_top false u na ne).1) ∧
    (ca.signalBroadcast = false → ce.dbusConnectOk = true → ce.attachOk = true →
       ce.setupOk = true →
       evBefore (configmgr_main false ca ce).1 Ev.attachRelay Ev.loopRun ∧
       evBefore (configmgr_main false ca ce).1 Ev.loopRun Ev.detachRelay) ∧
    (na.signalBroadcast = false → ne.euid = 0 → ne.egid = 0 →
       ne.capngChangeIdResult = 0 → ne.dbusConnectOk = true → ne.attachOk = true →
       ne.setupOk = true →
       evBefore (netcfg_top false false na ne).1 Ev.attachRelay Ev.loopRun ∧
       evBefore (netcfg_top false false na ne).1 Ev.loopRun Ev.detachRelay) := by
  refine ⟨?_, ?_, ?_, ?_⟩
  · intro hb
    rcases ce with ⟨d, t, s⟩
    rcases u <;> rcases d <;> rcases t <;> rcases s <;>
      simp only [configmgr_main, config_manager] <;>
      by_cases hsd : ca.stateDir.isSome = true <;>
      by_cases hw : ca.idleExit.getD 3 > 0 <;>
      rcases logSinkTrace_cases ca.logFile with hL | hL | hL <;> rw [hL] <;>
      simp [hb, hsd, hw]
  · intro hb
    rcases ne with ⟨eu, eg, cr, d, t, s⟩
    by_cases hroot : eg ≠ 0 ∨ eu ≠ 0
    · simp [netcfg_top, netcfg_main, hroot]
    · have he : eu = 0 ∧ eg = 0 := by omega
      cases he.1; cases he.2
      simp only [netcfg_top, netcfg_main, drop_root_ng]
      by_cases hcr : cr ≠ 0
      · rcases u <;>
          rcases logSinkTrace_cases na.logFile with hL | hL | hL <;> rw [hL] <;>
          simp [hcr]
      · have hc0 : cr = 0 := by omega
        cases hc0
        rcases u <;> rcases d <;> rcases t <;> rcases s <;>
          by_cases hv : na.logLevel.getD (-1) > 0 <;>
          by_cases hw : na.idleExit.getD 5 > 0 <;>
          rcases logSinkTrace_cases na.logFile with hL | hL | hL <;> rw [hL] <;>
          simp [hb, hv, hw]
  · intro hb h1 h2 h3
    rw [configmgr_main_ok ca ce h1 h2 h3]
    simp only [cfgOkTrace]
    by_cases hsd : ca.stateDir.isSome = true <;>
      by_cases hw : ca.idleExit.getD 3 > 0 <;>
      rcases logSinkTrace_cases ca.logFile with hL | hL | hL <;> rw [hL] <;>
      simp [hb, hsd, hw, evBefore]
  · intro hb h1 h2 h3 h4 h5 h6
    rw [netcfg_top_ok false na ne h1 h2 h3 h4 h5 h6]
    simp only [netOkTrace]
    by_cases hv : na.logLevel.getD (-1) > 0 <;>
      by_cases hw : na.idleExit.getD 5 > 0 <;>
      rcases logSinkTrace_cases na.logFile with hL | hL | hL <;> rw [hL] <;>
      simp [hb, hv, hw, evBefore]

/-- C8 witness: broadcast mode never touches the relay; unicast mode
attaches before the loop and detaches after it. -/
theorem broadcast_skips_relay_witness :
    (Ev.attachRelay ∉ (configmgr_main false ⟨none, none, false, true, none, none⟩
        ⟨true, true, true⟩).1 ∧
     Ev.detachRelay ∉ (configmgr_main false ⟨none, none, false, true, none, none⟩
        ⟨true, true, true⟩).1) ∧
    (evBefore (netcfg_top false false ⟨none, none, false, false, none, false, false⟩
        ⟨0, 0, 0, true, true, true⟩).1 Ev.attachRelay Ev.loopRun ∧
     evBefore (netcfg_top false false ⟨none, none, false, false, none, false, false⟩
        ⟨0, 0, 0, true, true, true⟩).1 Ev.loopRun Ev.detachRelay) :=
  ⟨(broadcast_skips_relay ⟨none, none, false, true, none, none⟩ ⟨true, true, true⟩ false
      ⟨none, none, false, false, none, false, false⟩ ⟨0, 0, 0, true, true, true⟩).1 rfl,
   (broadcast_skips_relay ⟨none, none, false, true, none, none⟩ ⟨true, true, true⟩ false
      ⟨none, none, false, false, none, false, false⟩ ⟨0, 0, 0, true, true, true⟩).2.2.2
      rfl rfl rfl rfl rfl rfl rfl⟩

set_option maxHeartbeats 4000000 in
/-- C10: The configuration manager registers the SIGINT/SIGTERM stop
handlers on the main loop only when the idle-exit threshold is 0 (before
the loop runs); when the watchdog is enabled (threshold > 0) it registers
no signal handler on any execution path.  The netcfg daemon registers
both handlers on its normal path regardless of the threshold, before the
loop runs. -/
theorem signal_handler_registration (ca : CfgArgs) (ce : CfgExt) (u : Bool)
    (na : NetArgs) (ne : NetEnv) :
    (ca.idleExit.getD 3 = 0 → ce.dbusConnectOk = true → ce.attachOk = true →
       ce.setupOk = true →
       evBefore (configmgr_main false ca ce).1 Ev.addSigInt Ev.loopRun ∧
       evBefore (configmgr_main false ca ce).1 Ev.addSigTerm Ev.loopRun) ∧
    (0 < ca.idleExit.getD 3 →
       Ev.addSigInt ∉ (configmgr_main u ca ce).1 ∧
       Ev.addSigTerm ∉ (configmgr_main u ca ce).1) ∧
    (ne.euid = 0 → ne.egid = 0 → ne.capngChangeIdResult = 0 →
       ne.dbusConnectOk = true → ne.attachOk = true → ne.setupOk = true →
       evBefore (netcfg_top false false na ne).1 Ev.addSigInt Ev.loopRun ∧
       evBefore (netcfg_top false false na ne).1 Ev.addSigTerm Ev.loopRun) := by
  refine ⟨?_, ?_, ?_⟩
  · intro hz h1 h2 h3
    rw [configmgr_main_ok ca ce h1 h2 h3]
    simp only [cfgOkTrace]
    by_cases hb : ca.signalBroadcast = true <;>
      by_cases hsd : ca.stateDir.isSome = true <;>
      rcases logSinkTrace_cases ca.logFile with hL | hL | hL <;> rw [hL] <;>
      simp [hz, hb, hsd, evBefore]
  · intro hw
    rcases ce with ⟨d, t, s⟩
    rcases u <;> rcases d <;> rcases t <;> rcases s <;>
      simp only [configmgr_main, config_manager] <;>
      by_cases hb : ca.signalBroadcast = true <;>
      by_cases hsd : ca.stateDir.isSome = true <;>
      rcases logSinkTrace_cases ca.logFile with hL | hL | hL <;> rw [hL] <;>
      simp [hw, hb, hsd]
  · intro h1 h2 h3 h4 h5 h6
    rw [netcfg_top_ok false na ne h1 h2 h3 h4 h5 h6]
    simp only [netOkTrace]
    by_cases hb : na.signalBroadcast = true <;>
      by_cases hv : na.logLevel.getD (-1) > 0 <;>
      by_cases hw : na.idleExit.getD 5 > 0 <;>
      rcases logSinkTrace_cases na.logFile with hL | hL | hL <;> rw [hL] <;>
      simp [hb, hv, hw, evBefore]

/-- C10 witness: with threshold 0 the configuration manager registers the
handlers before the loop; with the default threshold it registers none;
netcfg registers both before the loop. -/
theorem signal_handler_registration_witness :
    (evBefore (configmgr_main false ⟨some 0, none, false, false, none, none⟩
        ⟨true, true, true⟩).1 Ev.addSigInt Ev.loopRun ∧
     evBefore (configmgr_main false ⟨some 0, none, false, false, none, none⟩
        ⟨true, true, true⟩).1 Ev.addSigTerm Ev.loopRun) ∧
    (Ev.addSigInt ∉ (configmgr_main false ⟨none, none, false, false, none, none⟩
        ⟨true, true, true⟩).1 ∧
     Ev.addSigTerm ∉ (configmgr_main false ⟨none, none, false, false, none, none⟩
        ⟨true, true, true⟩).1) ∧
    (evBefore (netcfg_top false false ⟨none, none, false, false, none, false, false⟩
        ⟨0, 0, 0, true, true, true⟩).1 Ev.addSigInt Ev.loopRun ∧
     evBefore (netcfg_top false false ⟨none, none, false, false, none, false, false⟩
        ⟨0, 0, 0, true, true, true⟩).1 Ev.addSigTerm Ev.loopRun) :=
  ⟨(signal_handler_registration ⟨some 0, none, false, false, none, none⟩ ⟨true, true, true⟩
      false ⟨none, none, false, false, none, false, false⟩ ⟨0, 0, 0, true, true, true⟩).1
      rfl rfl rfl rfl,
   (signal_handler_registration ⟨none, none, false, false, none, none⟩ ⟨true, true, true⟩
      false ⟨none, none, false, false, none, false, false⟩ ⟨0, 0, 0, true, true, true⟩).2.1
      (by decide),
   (signal_handler_registration ⟨none, none, false, false, none, none⟩ ⟨true, true, true⟩
      false ⟨none, none, false, false, none, false, false⟩ ⟨0, 0, 0, true, true, true⟩).2.2
      rfl rfl rfl rfl rfl rfl⟩

/-- Additional case split for the log sink trace when `--log-file` is
present: the log writer is always constructed. -/
theorem logSinkTrace_cases_isSome (lf : Option String) (h : lf.isSome = true) :
    logSinkTrace lf = [Ev.mkLogWriter] ∨
    logSinkTrace lf = [Ev.openLogFile, Ev.mkLogWriter] := by
  rcases lf with _ | f
  · simp at h
  · by_cases hf : f ≠ "stdout:" <;> simp [logSinkTrace, hf]

/-- C2 counterexample: in a concrete normal run of the configuration
manager (defaults: idle threshold 3, unicast signalling), the event loop
object is released (`g_main_loop_unref`) strictly before the relay detach
and before the watchdog is disabled and joined — so teardown does not
proceed in the claimed order "detach, then disable and join, then release
the loop". -/
theorem teardown_order_counterexample :
    Ev.idleJoin ∈ (configmgr_main false ⟨none, none, false, false, none, none⟩
        ⟨true, true, true⟩).1 ∧
    Ev.detachRelay ∈ (configmgr_main false ⟨none, none, false, false, none, none⟩
        ⟨true, true, true⟩).1 ∧
    Ev.loopUnref ∈ (configmgr_main false ⟨none, none, false, false, none, none⟩
        ⟨true, true, true⟩).1 ∧
    ¬ evBefore (configmgr_main false ⟨none, none, false, false, none, none⟩
        ⟨true, true, true⟩).1 Ev.idleJoin Ev.loopUnref ∧
    ¬ evBefore (configmgr_main false ⟨none, none, false, false, none, none⟩
        ⟨true, true, true⟩).1 Ev.detachRelay Ev.loopUnref ∧
    evBefore (configmgr_main false ⟨none, none, false, false, none, none⟩
        ⟨true, true, true⟩).1 Ev.loopUnref Ev.detachRelay := by
  decide

set_option maxHeartbeats 4000000 in
/-- C2 (amended): on the normal shutdown path of both daemons (unicast
mode, watchdog enabled), teardown proceeds in the order: release the
event loop object, then detach from the logging relay, then disable and
join the watchdog, then release the bus connection; in particular the
watchdog is disabled-and-joined strictly before the bus connection object
is released, but only after the loop object has already been released. -/
theorem teardown_order_amended (ca : CfgArgs) (ce : CfgExt) (na : NetArgs) (ne : NetEnv)
    (hcb : ca.signalBroadcast = false) (hcw : 0 < ca.idleExit.getD 3)
    (h1 : ce.dbusConnectOk = true) (h2 : ce.attachOk = true) (h3 : ce.setupOk = true)
    (hnb : na.signalBroadcast = false) (hnw : 0 < na.idleExit.getD 5)
    (n1 : ne.euid = 0) (n2 : ne.egid = 0) (n3 : ne.capngChangeIdResult = 0)
    (n4 : ne.dbusConnectOk = true) (n5 : ne.attachOk = true) (n6 : ne.setupOk = true) :
    (evBefore (configmgr_main false ca ce).1 Ev.loopUnref Ev.detachRelay ∧
     evBefore (configmgr_main false ca ce).1 Ev.detachRelay Ev.idleDisable ∧
     evBefore (configmgr_main false ca ce).1 Ev.idleDisable Ev.idleJoin ∧
     evBefore (configmgr_main false ca ce).1 Ev.idleJoin Ev.releaseBus) ∧
    (evBefore (netcfg_top false false na ne).1 Ev.loopUnref Ev.detachRelay ∧
     evBefore (netcfg_top false false na ne).1 Ev.detachRelay Ev.idleDisable ∧
     evBefore (netcfg_top false false na ne).1 Ev.idleDisable Ev.idleJoin ∧
     evBefore (netcfg_top false false na ne).1 Ev.idleJoin Ev.releaseBus) := by
  constructor
  · rw [configmgr_main_ok ca ce h1 h2 h3]
    simp only [cfgOkTrace]
    by_cases hsd : ca.stateDir.isSome = true <;>
      rcases logSinkTrace_cases ca.logFile with hL | hL | hL <;> rw [hL] <;>
      simp [hcb, hcw, hsd, evBefore]
  · rw [netcfg_top_ok false na ne n1 n2 n3 n4 n5 n6]
    simp only [netOkTrace]
    by_cases hv : na.logLevel.getD (-1) > 0 <;>
      rcases logSinkTrace_cases na.logFile with hL | hL | hL <;> rw [hL] <;>
      simp [hnb, hnw, hv, evBefore]

/-- C2 witness: the amended teardown order at concrete default
configurations of both daemons. -/
theorem teardown_order_amended_witness :
    (evBefore (configmgr_main false ⟨none, none, false, false, none, none⟩
        ⟨true, true, true⟩).1 Ev.loopUnref Ev.detachRelay ∧
     evBefore (configmgr_main false ⟨none, none, false, false, none, none⟩
        ⟨true, true, true⟩).1 Ev.detachRelay Ev.idleDisable ∧
     evBefore (configmgr_main false ⟨none, none, false, false, none, none⟩
        ⟨true, true, true⟩).1 Ev.idleDisable Ev.idleJoin ∧
     evBefore (configmgr_main false ⟨none, none, false, false, none, none⟩
        ⟨true, true, true⟩).1 Ev.idleJoin Ev.releaseBus) ∧
    (evBefore (netcfg_top false false ⟨none, none, false, false, none, false, false⟩
        ⟨0, 0, 0, true, true, true⟩).1 Ev.loopUnref Ev.detachRelay ∧
     evBefore (netcfg_top false false ⟨none, none, false, false, none, false, false⟩
        ⟨0, 0, 0, true, true, true⟩).1 Ev.detachRelay Ev.idleDisable ∧
     evBefore (netcfg_top false false ⟨none, none, false, false, none, false, false⟩
        ⟨0, 0, 0, true, true, true⟩).1 Ev.idleDisable Ev.idleJoin ∧
     evBefore (netcfg_top false false ⟨none, none, false, false, none, false, false⟩
        ⟨0, 0, 0, true, true, true⟩).1 Ev.idleJoin Ev.releaseBus) :=
  teardown_order_amended ⟨none, none, false, false, none, none⟩ ⟨true, true, true⟩
    ⟨none, none, false, false, none, false, false⟩ ⟨0, 0, 0, true, true, true⟩
    rfl (by decide) rfl rfl rfl rfl (by decide) rfl rfl rfl rfl rfl rfl

/-- C3 counterexample: in a concrete run of the configuration manager
with `--log-file log`, `drop_root()` (the privilege-restriction step,
executed at the top of `main`) occurs strictly before the log sink is
constructed — refuting the claim that in both daemon variants the log
sink is constructed before the privilege-restriction step. -/
theorem logsink_order_counterexample :
    Ev.dropRoot ∈ (configmgr_main false ⟨none, some "log", false, false, none, none⟩
        ⟨true, true, true⟩).1 ∧
    Ev.mkLogWriter ∈ (configmgr_main false ⟨none, some "log", false, false, none, none⟩
        ⟨true, true, true⟩).1 ∧
    ¬ evBefore (configmgr_main false ⟨none, some "log", false, false, none, none⟩
        ⟨true, true, true⟩).1 Ev.mkLogWriter Ev.dropRoot ∧
    evBefore (configmgr_main false ⟨none, some "log", false, false, none, none⟩
        ⟨true, true, true⟩).1 Ev.dropRoot Ev.mkLogWriter := by
  decide

set_option maxHeartbeats 4000000 in
/-- C3 (amended): only the netcfg daemon constructs its log sink before
its privilege-restriction step (the `capng_clear` … `capng_apply` block),
on every path started as root; the configuration manager instead drops
its privileges (`drop_root()` at the top of `main`) strictly before the
log sink is constructed. -/
theorem logsink_order_amended (ca : CfgArgs) (ce : CfgExt) (na : NetArgs) (ne : NetEnv)
    (hclf : ca.logFile.isSome = true) (hnlf : na.logFile.isSome = true)
    (h1 : ce.dbusConnectOk = true) (h2 : ce.attachOk = true) (h3 : ce.setupOk = true)
    (n1 : ne.euid = 0) (n2 : ne.egid = 0) :
    evBefore (configmgr_main false ca ce).1 Ev.dropRoot Ev.mkLogWriter ∧
    evBefore (netcfg_main false na ne).1 Ev.mkLogWriter Ev.capngClear := by
  constructor
  · rw [configmgr_main_ok ca ce h1 h2 h3]
    simp only [cfgOkTrace]
    by_cases hb : ca.signalBroadcast = true <;>
      by_cases hsd : ca.stateDir.isSome = true <;>
      by_cases hw : ca.idleExit.getD 3 > 0 <;>
      rcases logSinkTrace_cases_isSome ca.logFile hclf with hL | hL <;> rw [hL] <;>
      simp [hb, hsd, hw, evBefore]
  · rcases ne with ⟨eu, eg, cr, d, t, s⟩
    cases n1; cases n2
    simp only [netcfg_main, drop_root_ng]
    by_cases hcr : cr ≠ 0
    · rcases logSinkTrace_cases_isSome na.logFile hnlf with hL | hL <;> rw [hL] <;>
        simp [hcr, evBefore]
    · have hc0 : cr = 0 := by omega
      cases hc0
      rcases d <;> rcases t <;> rcases s <;>
        by_cases hb : na.signalBroadcast = true <;>
        by_cases hv : na.logLevel.getD (-1) > 0 <;>
        by_cases hw : na.idleExit.getD 5 > 0 <;>
        rcases logSinkTrace_cases_isSome na.logFile hnlf with hL | hL <;> rw [hL] <;>
        simp [hb, hv, hw, evBefore]

/-- C3 witness: concrete runs with a log file configured. -/
theorem logsink_order_amended_witness :
    evBefore (configmgr_main false ⟨none, some "log", false, false, none, none⟩
        ⟨true, true, true⟩).1 Ev.dropRoot Ev.mkLogWriter ∧
    evBefore (netcfg_main false ⟨none, some "log", false, false, none, false, false⟩
        ⟨0, 0, 0, true, true, true⟩).1 Ev.mkLogWriter Ev.capngClear :=
  logsink_order_amended ⟨none, some "log", false, false, none, none⟩ ⟨true, true, true⟩
    ⟨none, some "log", false, false, none, false, false⟩ ⟨0, 0, 0, true, true, true⟩
    rfl rfl rfl rfl rfl rfl rfl

/-- C4 counterexample: in the netcfg daemon a logging-relay attachment
failure is caught by the try-block around the loop setup and yields exit
code 3, not the claimed exit code 2. -/
theorem exit_code_counterexample :
    (netcfg_top false false ⟨none, none, false, false, none, false, false⟩
        ⟨0, 0, 0, true, false, true⟩).2 = Outcome.exit 3 ∧
    (netcfg_top false false ⟨none, none, false, false, none, false, false⟩
        ⟨0, 0, 0, true, false, true⟩).2 ≠ Outcome.exit 2 := by
  decide

/-- C4 (amended): exit code 0 on normal shutdown of both daemons; exit
code 2 on argument/usage errors of both daemons and on a logging-relay
attachment error of the configuration manager; exit code 3 for the netcfg
daemon on any fatal error raised during its loop-setup try-block —
including a logging-relay attachment error or a bus-connection failure;
the configuration manager has no exit-code-3 path: a fatal setup
exception other than the two caught classes escapes `main` uncaught. -/
theorem exit_codes_amended (ca : CfgArgs) (ce : CfgExt)
    (na : NetArgs) (ne : NetEnv) :
    ((configmgr_main true ca ce).2 = Outcome.exit 2) ∧
    ((netcfg_top false true na ne).2 = Outcome.exit 2) ∧
    (ce.dbusConnectOk = true → ce.attachOk = true → ce.setupOk = true →
       (configmgr_main false ca ce).2 = Outcome.exit 0) ∧
    (ne.euid = 0 → ne.egid = 0 → ne.capngChangeIdResult = 0 →
       ne.dbusConnectOk = true → ne.attachOk = true → ne.setupOk = true →
       (netcfg_top false false na ne).2 = Outcome.exit 0) ∧
    (ca.signalBroadcast = false → ce.dbusConnectOk = true → ce.attachOk = false →
       (configmgr_main false ca ce).2 = Outcome.exit 2) ∧
    (na.signalBroadcast = false → ne.euid = 0 → ne.egid = 0 →
       ne.capngChangeIdResult = 0 → ne.dbusConnectOk = true → ne.attachOk = false →
       (netcfg_top false false na ne).2 = Outcome.exit 3) ∧
    (ne.euid = 0 → ne.egid = 0 → ne.capngChangeIdResult = 0 →
       ne.dbusConnectOk = false →
       (netcfg_top false false na ne).2 = Outcome.exit 3) ∧
    (ne.euid = 0 → ne.egid = 0 → ne.capngChangeIdResult = 0 →
       ne.dbusConnectOk = true → ne.attachOk = true → ne.setupOk = false →
       (netcfg_top false false na ne).2 = Outcome.exit 3) ∧
    (ce.dbusConnectOk = true → ce.attachOk = true → ce.setupOk = false →
       (configmgr_main false ca ce).2 = Outcome.uncaught Exc.otherStdExc) := by
  refine ⟨?_, ?_, ?_, ?_, ?_, ?_, ?_, ?_, ?_⟩
  · simp [configmgr_main]
  · simp [netcfg_top]
  · intro h1 h2 h3
    rw [configmgr_main_ok ca ce h1 h2 h3]
  · intro n1 n2 n3 n4 n5 n6
    rw [netcfg_top_ok false na ne n1 n2 n3 n4 n5 n6]
  · intro hb h1 h2
    rcases ce with ⟨d, t, s⟩
    cases h1; cases h2
    rcases s <;> simp [configmgr_main, config_manager, hb]
  · intro hb n1 n2 n3 n4 n5
    rcases ne with ⟨eu, eg, cr, d, t, s⟩
    cases n1; cases n2; cases n3; cases n4; cases n5
    rcases s <;> simp [netcfg_top, netcfg_main, drop_root_ng, hb]
  · intro n1 n2 n3 n4
    rcases ne with ⟨eu, eg, cr, d, t, s⟩
    cases n1; cases n2; cases n3; cases n4
    rcases t <;> rcases s <;> simp [netcfg_top, netcfg_main, drop_root_ng]
  · intro n1 n2 n3 n4 n5 n6
    rcases ne with ⟨eu, eg, cr, d, t, s⟩
    cases n1; cases n2; cases n3; cases n4; cases n5; cases n6
    by_cases hb : na.signalBroadcast = true <;>
      simp [netcfg_top, netcfg_main, drop_root_ng, hb]
  · intro h1 h2 h3
    rcases ce with ⟨d, t, s⟩
    cases h1; cases h2; cases h3
    by_cases hb : ca.signalBroadcast = true <;>
      simp [configmgr_main, config_manager, hb]

/-- C4 witness: concrete runs — normal shutdown exits 0, and a netcfg
relay-attachment failure exits 3. -/
theorem exit_codes_amended_witness :
    (configmgr_main false ⟨none, none, false, false, none, none⟩
        ⟨true, true, true⟩).2 = Outcome.exit 0 ∧
    (netcfg_top false false ⟨none, none, false, false, none, false, false⟩
        ⟨0, 0, 0, true, false, true⟩).2 = Outcome.exit 3 :=
  ⟨(exit_codes_amended ⟨none, none, false, false, none, none⟩ ⟨true, true, true⟩
      ⟨none, none, false, false, none, false, false⟩ ⟨0, 0, 0, true, false, true⟩).2.2.1
      rfl rfl rfl,
   (exit_codes_amended ⟨none, none, false, false, none, none⟩ ⟨true, true, true⟩
      ⟨none, none, false, false, none, false, false⟩ ⟨0, 0, 0, true, false, true⟩).2.2.2.2.2.1
      rfl rfl rfl rfl rfl rfl⟩

/-- C1 (modelled from the spec, as the `IdleCheck` class is not among the
two source files): for every idle threshold `t > 0` (measured in poll
ticks), if the observed activity pulses end with a continuous non-busy
period of length at least `t`, the watchdog delivers exactly one
termination request to the loop and stops polling afterwards; and over an
arbitrary pulse sequence it never delivers more than one termination
request — the request is never invoked a second time. -/
theorem idle_watchdog_single_termination (t : Nat) (p : List Bool) (m : Nat)
    (bs : List Bool) (ht : 0 < t) (hm : t ≤ m) :
    (wdRun t wdInit (p ++ List.replicate m false)).2 = 1 ∧
    (wdRun t wdInit (p ++ List.replicate m false)).1.running = false ∧
    (wdRun t wdInit bs).2 ≤ 1 := by
  have hcount : (wdRun t wdInit (p ++ List.replicate m false)).2 = 1 := by
    rw [wdRun_append]
    rcases wdRun_dichotomy t wdInit rfl rfl ht p with ⟨h0, hr, _, hi⟩ | ⟨h1, hr⟩
    · have hfire := wdRun_idle_fires t (wdRun t wdInit p).1 hr hi m (by omega)
      omega
    · have hrest := wdRun_not_running t (wdRun t wdInit p).1 hr
        (List.replicate m false)
      rw [hrest]
      omega
  refine ⟨hcount, ?_, ?_⟩
  · rcases wdRun_dichotomy t wdInit rfl rfl ht (p ++ List.replicate m false) with
      ⟨h0, _, _, _⟩ | ⟨_, hr⟩
    · omega
    · exact hr
  · rcases wdRun_dichotomy t wdInit rfl rfl ht bs with ⟨h0, _, _, _⟩ | ⟨h1, _⟩ <;>
      omega

/-- C1 witness: threshold 2 ticks, one busy pulse then continuous
idleness — exactly one termination request, polling stopped, and never a
second request on an arbitrary all-idle run. -/
theorem idle_watchdog_single_termination_witness :
    (wdRun 2 wdInit ([true, false] ++ List.replicate 2 false)).2 = 1 ∧
    (wdRun 2 wdInit ([true, false] ++ List.replicate 2 false)).1.running = false ∧
    (wdRun 2 wdInit [false, false, false, false, false]).2 ≤ 1 :=
  idle_watchdog_single_termination 2 [true, false] 2
    [false, false, false, false, false] (by decide) (by decide)

end OpenVPN3
